import Mathlib

/-
Verification of the include_packed asset-packing system: a shallow Lean
embedding of the build-script packer (include_packed/src/build.rs), the
runtime decompressor (include_packed/src/lib.rs) and the code-generation
side (include_packed_macros/src/lib.rs), with theorems about the claims
of the specification.
-/

set_option maxHeartbeats 1000000
set_option maxRecDepth 8000

namespace IncludePacked

/-- A single-quote character as a string (used by the error-message formats
of the source, which wrap paths in single quotes). -/
def sq : String := String.singleton (Char.ofNat 39)

/-- Fixed-width lowercase hexadecimal rendering of a 64-bit value, as
produced by the Rust format specifier for zero-padded 16-digit hex used in
both identifier derivations. -/
def hex16 (n : Nat) : String :=
  String.mk ((List.range 16).map (fun i => Nat.digitChar (n / 16 ^ (15 - i) % 16)))

/-- One write fed into the standard hasher state: both derivation sites
hash first the path (component-wise, as Rust hashes a PathBuf) and then the
modification time. -/
inductive HashInput where
  | pathComps (comps : List String)
  | mtime (t : Nat)

/-- Rust strip prefix on paths followed by unwrap_or of the original path,
on component lists: if the prefix matches, drop it, otherwise keep the whole
path (build.rs lines 144-147). -/
def stripPrefixComponents (p pre : List String) : List String :=
  if pre.isPrefixOf p then p.drop pre.length else p

/-- Components of a path literal as hashed by the consumer-side resolver,
which hashes the PathBuf built from the macro argument string. -/
def splitOnSlash (s : String) : List String := s.splitOn "/"

/-- Rendering of a component list as a display path. -/
def joinComponents (cs : List String) : String := String.intercalate "/" cs

/-- Boolean substring test, used only to state properties of error
messages. -/
def strContains (s pat : String) : Bool := decide (pat.data <:+: s.data)

/-- Rust parse of a usize from a string: optional leading plus sign, then
one or more decimal digits, rejecting anything else and values that do not
fit in 64 bits (the parse called on the length record contents). -/
def parseUsize (s : String) : Option Nat :=
  let cs := s.data
  let t := match cs with
    | c :: rest => if c = Char.ofNat 43 then rest else cs
    | [] => cs
  if t.isEmpty then none
  else if t.all Char.isDigit then
    let v := t.foldl (fun a c => a * 10 + (c.toNat - 48)) 0
    if v < 2 ^ 64 then some v else none
  else none

/-- Identifier derivation of the preparation phase (process_file,
build.rs lines 144-152): strip the manifest directory from the canonical
path, hash the resulting path then the modification time with the standard
hasher, and format the 64-bit digest as a prefixed 16-digit hex token.
The hasher itself is the external standard-library DefaultHasher; it is
abstracted as the digest parameter, applied to the exact write sequence the
source performs, reduced to 64 bits as the finish call returns u64. -/
def processFileIdentifier (digest : List HashInput → Nat)
    (canonicalPath mdir : List String) (t : Nat) : String :=
  let pathForHashing := stripPrefixComponents canonicalPath mdir
  "include_packed_" ++ hex16 (digest [HashInput.pathComps pathForHashing, HashInput.mtime t] % 2 ^ 64)

/-- Identifier derivation of the consumer-side resolver (get_tokens_native,
macros lib.rs lines 116, 130-133): hash the PathBuf of the literal argument
then the modification time read from disk, with the same standard hasher
and the same format string as the preparation phase. -/
def getTokensNativeIdentifier (digest : List HashInput → Nat)
    (comps : List String) (t : Nat) : String :=
  "include_packed_" ++ hex16 (digest [HashInput.pathComps comps, HashInput.mtime t] % 2 ^ 64)

namespace zstd

/-- Modelled from the spec: the default compression level of the external
zstd crate, used by the embedding fallback path; the spec fixes it as
default 3 for the fallback path. -/
def DEFAULT_COMPRESSION_LEVEL : Int := 3

/-- Modelled from the spec: run-length pairs of the modelled general-purpose
compressor (the zstd crate is external to this repository; the spec only
requires a deterministic, level-parameterised, lossless codec). Runs are
capped at 255 so each pair fits in bytes. -/
def rleEncode : List Nat → List (Nat × Nat)
  | [] => []
  | b :: rest =>
    match rleEncode rest with
    | [] => [(1, b)]
    | (c, b2) :: tail =>
      if b = b2 ∧ c < 255 then (c + 1, b) :: tail else (1, b) :: (c, b2) :: tail

/-- Modelled from the spec: inverse of the run-length pairing. -/
def rleDecode : List (Nat × Nat) → List Nat
  | [] => []
  | (c, b) :: tail => List.replicate c b ++ rleDecode tail

/-- Modelled from the spec: byte serialisation of the run-length pairs. -/
def pairsSerialize : List (Nat × Nat) → List Nat
  | [] => []
  | (c, b) :: tail => c :: b :: pairsSerialize tail

/-- Modelled from the spec: parse of the serialised run-length pairs;
truncated input is invalid compressed data. -/
def pairsParse : List Nat → Option (List (Nat × Nat))
  | [] => some []
  | c :: b :: rest => (pairsParse rest).map (fun t => (c, b) :: t)
  | [_] => none

/-- The four magic bytes opening every zstd frame. -/
def zstdMagic : List Nat := [40, 181, 47, 253]

/-- Modelled from the spec: the compressor invoked by preparation
(zstd encode_all; external crate). The level selects a size/speed
trade-off and does not affect losslessness. -/
def encode_all (content : List Nat) (_level : Int) : List Nat :=
  zstdMagic ++ pairsSerialize (rleEncode content)

/-- Modelled from the spec: the decompressor (zstd decode_all; external
crate); none models a decoding error on invalid data. -/
def decode_all (data : List Nat) : Option (List Nat) :=
  if data.take 4 = zstdMagic then (pairsParse (data.drop 4)).map rleDecode
  else none

end zstd

/-- Runtime decompressor of the crate (lib.rs lines 80-84): decode the
buffer, with none modelling the fatal expect-panic on invalid data. -/
def decompress (compressedData : List Nat) : Option (List Nat) :=
  zstd.decode_all compressedData

--
-- Target resolution (build.rs lines 197-240)
--

/-- Object formats emitted by the packer. -/
inductive BinaryFormat where
  | machO
  | coff
  | elf
deriving DecidableEq

/-- Architectures in the allow-list of the target resolver. -/
inductive Architecture where
  | i386
  | x86_64
  | arm
  | aarch64
  | riscv32
  | riscv64
  | mips
  | mips64
  | powerPc
  | powerPc64
deriving DecidableEq

/-- Endianness values recognised by the target resolver. -/
inductive Endianness where
  | little
  | big
deriving DecidableEq

/-- Resolved target information used for object creation. -/
structure TargetInfo where
  binfmt : BinaryFormat
  arch : Architecture
  endian : Endianness
deriving DecidableEq

/-- Operating-system branch of the resolver (build.rs lines 199-208);
none models the fatal panic on an unhandled operating system. -/
def binfmtOfOs (os : String) : Option BinaryFormat :=
  if os = "macos" ∨ os = "ios" then some BinaryFormat.machO
  else if os = "windows" then some BinaryFormat.coff
  else if os = "linux" ∨ os = "android" ∨ os = "freebsd" ∨ os = "netbsd" ∨
      os = "openbsd" ∨ os = "dragonfly" ∨ os = "solaris" ∨ os = "illumos" then
    some BinaryFormat.elf
  else none

/-- Architecture branch of the resolver (build.rs lines 209-224);
none models the fatal panic on an unhandled architecture. -/
def archOfStr (a : String) : Option Architecture :=
  if a = "x86" then some Architecture.i386
  else if a = "x86_64" then some Architecture.x86_64
  else if a = "arm" then some Architecture.arm
  else if a = "aarch64" then some Architecture.aarch64
  else if a = "riscv32" then some Architecture.riscv32
  else if a = "riscv64" then some Architecture.riscv64
  else if a = "mips" then some Architecture.mips
  else if a = "mips64" then some Architecture.mips64
  else if a = "powerpc" then some Architecture.powerPc
  else if a = "powerpc64" then some Architecture.powerPc64
  else none

/-- Endianness branch of the resolver (build.rs lines 225-232);
none models the fatal unreachable panic on an unhandled value. -/
def endianOfStr (e : String) : Option Endianness :=
  if e = "little" then some Endianness.little
  else if e = "big" then some Endianness.big
  else none

/-- Target resolution from the build-script environment values
(TargetInfo from_build_script_vars, build.rs lines 198-239): each of the
three branches must resolve, and any failure is fatal (none). -/
def TargetInfo.from_build_script_vars (os a e : String) : Option TargetInfo :=
  match binfmtOfOs os, archOfStr a, endianOfStr e with
  | some b, some ar, some en => some ⟨b, ar, en⟩
  | _, _, _ => none

--
-- Object synthesis (build.rs lines 157-173)
--

/-- Standard sections of the object writer used by the packer. -/
inductive StandardSection where
  | readOnlyData
deriving DecidableEq

/-- Symbol kinds of the object writer (only data is used). -/
inductive SymbolKind where
  | data
  | text
  | unknown
deriving DecidableEq

/-- Symbol scopes of the object writer (the packer uses dynamic, the
externally and dynamically visible scope). -/
inductive SymbolScope where
  | compilation
  | linkage
  | dynamic
  | unknown
deriving DecidableEq

/-- Symbol flags of the object writer (the packer sets none). -/
inductive SymbolFlags where
  | none
deriving DecidableEq

/-- Section placement of a symbol: the packer places its symbol in the
subsection it created (the section keyword is reserved in Lean, so the
constructor is named inSection). -/
inductive SymbolSection where
  | undefined
  | inSection (idx : Nat)
deriving DecidableEq

/-- A symbol exactly as passed to add_symbol in process_file
(the sect field models the section field of the source, a reserved word
in Lean). -/
structure ObjSymbol where
  name : String
  value : Nat
  size : Nat
  kind : SymbolKind
  scope : SymbolScope
  weak : Bool
  sect : SymbolSection
  flags : SymbolFlags
deriving DecidableEq

/-- In-memory object file under construction: the sequence of subsections,
symbols and data placements registered through the writer calls that
process_file performs. -/
structure WObject where
  format : BinaryFormat
  arch : Architecture
  endian : Endianness
  sections : List (StandardSection × String)
  symbols : List ObjSymbol
  symbolData : List (Nat × Nat × List Nat × Nat)
deriving DecidableEq

/-- Object new: an empty object for the given target triple. -/
def WObject.new (fmt : BinaryFormat) (arch : Architecture) (endian : Endianness) : WObject :=
  ⟨fmt, arch, endian, [], [], []⟩

/-- Object add_subsection: registers a tagged subsection and returns its
index. -/
def WObject.add_subsection (o : WObject) (s : StandardSection) (tag : String) :
    WObject × Nat :=
  ({ o with sections := o.sections ++ [(s, tag)] }, o.sections.length)

/-- Object add_symbol: registers a symbol and returns its index. -/
def WObject.add_symbol (o : WObject) (sym : ObjSymbol) : WObject × Nat :=
  ({ o with symbols := o.symbols ++ [sym] }, o.symbols.length)

/-- Object add_symbol_data: backs a symbol with bytes in a section at a
given alignment. -/
def WObject.add_symbol_data (o : WObject) (symId sectionId : Nat)
    (data : List Nat) (align : Nat) : WObject :=
  { o with symbolData := o.symbolData ++ [(symId, sectionId, data, align)] }

/-- Object synthesis performed by process_file (build.rs lines 157-172):
one read-only-data subsection tagged by the identifier, one data symbol
named by the identifier with value 0, size equal to the blob length,
dynamic scope, not weak, no flags, and the blob placed at alignment 1. -/
def processFileObject (info : TargetInfo) (uniqueName : String)
    (compressed : List Nat) : WObject :=
  let o0 := WObject.new info.binfmt info.arch info.endian
  let r1 := o0.add_subsection StandardSection.readOnlyData uniqueName
  let o1 := r1.1
  let sectionId := r1.2
  let r2 := o1.add_symbol
    { name := uniqueName, value := 0, size := compressed.length,
      kind := SymbolKind.data, scope := SymbolScope.dynamic, weak := false,
      sect := SymbolSection.inSection sectionId, flags := SymbolFlags.none }
  let o2 := r2.1
  let symId := r2.2
  o2.add_symbol_data symId sectionId compressed 1

--
-- Errors, configuration and the walker (build.rs lines 31-188)
--

/-- The build-script error enum (build.rs lines 92-108). The io, object
and fromUtf8 variants wrap external payloads whose display is a fixed
message. -/
inductive Error where
  | io
  | object
  | var (name : String)
  | pathNotFound (path : String) (cwd : String)
  | unsupportedFileType (path : String)
  | fromUtf8
  | generic (msg : String)
deriving DecidableEq

/-- Display messages of the error enum, exactly as the thiserror
attributes of the source render them. -/
def Error.message : Error → String
  | Error.io => "I/O error"
  | Error.object => "Object writing error"
  | Error.var n => "Environment variable " ++ sq ++ n ++ sq ++ " not set by Cargo"
  | Error.pathNotFound p c =>
      "Path " ++ sq ++ p ++ sq ++ " not found (current directory is " ++ sq ++ c ++ sq ++ ")"
  | Error.unsupportedFileType p => "Path " ++ sq ++ p ++ sq ++ " has unsupported file type"
  | Error.fromUtf8 => "Could not convert object file name to UTF-8"
  | Error.generic m => "A generic build error occurred: " ++ m

/-- The default compression level of the preparation path
(build.rs line 86). -/
def DEFAULT_COMPRESSION_LEVEL : Int := 6

/-- The public builder configuration (build.rs lines 31-35). -/
structure Config where
  path : String
  level : Int
deriving DecidableEq

/-- Config new (build.rs lines 42-47): stores the path and the default
level. -/
def Config.new (path : String) : Config :=
  ⟨path, DEFAULT_COMPRESSION_LEVEL⟩

/-- Config level (build.rs lines 54-57; named setLevel because the field
accessor already takes the source name): stores the given level unchanged,
with no validation. -/
def Config.setLevel (c : Config) (level : Int) : Config :=
  { c with level := level }

/-- A filesystem entry as the walker observes it: a regular file with
content and modification time, a directory with entries, or any other
entry kind (symlink, socket, ...). -/
inductive FsEntry where
  | file (name : String) (content : List Nat) (mtime : Nat)
  | dir (name : String) (entries : List FsEntry)
  | other (name : String)

/-- The pair of artifacts process_file writes for one asset
(build.rs lines 154-183): the object file and the decimal length record,
named by the identifier, plus the compressed blob and the synthesised
object recorded for inspection. -/
structure Artifact where
  objName : String
  lenName : String
  lenContent : String
  compressed : List Nat
  object : WObject
deriving DecidableEq

/-- Per-file processing of process_file (build.rs lines 139-188): derive
the identifier from the manifest-stripped path and the modification time,
compress the content at the configured level, synthesise the object, and
write the object file and the decimal length record. -/
def processFileArtifact (digest : List HashInput → Nat) (mdir : List String)
    (info : TargetInfo) (level : Int) (fullPath : List String)
    (content : List Nat) (mtime : Nat) : Artifact :=
  let uniqueName := processFileIdentifier digest fullPath mdir mtime
  let compressed := zstd.encode_all content level
  { objName := uniqueName ++ ".o"
    lenName := uniqueName ++ ".len"
    lenContent := Nat.repr compressed.length
    compressed := compressed
    object := processFileObject info uniqueName compressed }

mutual

/-- The recursive walker (make_includable_impl, build.rs lines 116-136):
a file is processed, a directory is recursed into entry by entry, and any
other entry kind is a fatal UnsupportedFileType error. The state-passing
embedding returns the artifacts written so far together with the error, if
any, at which the run aborted: the source writes each artifact to disk as
it goes, so writes made before a failure are observable. -/
def makeIncludableImpl (digest : List HashInput → Nat) (mdir : List String)
    (info : TargetInfo) (level : Int) (ps : List String) :
    FsEntry → List Artifact × Option Error
  | FsEntry.file nm c t =>
      ([processFileArtifact digest mdir info level (ps ++ [nm]) c t], none)
  | FsEntry.dir nm es => makeIncludableDir digest mdir info level (ps ++ [nm]) es
  | FsEntry.other nm =>
      ([], some (Error.unsupportedFileType (joinComponents (ps ++ [nm]))))

/-- Directory traversal of the walker: each entry in order, aborting at
the first error as the question-mark operator of the source does, keeping
the artifacts already written. -/
def makeIncludableDir (digest : List HashInput → Nat) (mdir : List String)
    (info : TargetInfo) (level : Int) (ps : List String) :
    List FsEntry → List Artifact × Option Error
  | [] => ([], none)
  | e :: rest =>
    match makeIncludableImpl digest mdir info level ps e with
    | (ws, some err) => (ws, some err)
    | (ws, none) =>
      let r := makeIncludableDir digest mdir info level ps rest
      (ws ++ r.1, r.2)

end

/-- Top-level walker entry (make_includable_impl on the root,
build.rs lines 116-122): a root that cannot be canonicalised (modelled as
an absent filesystem entry) is a PathNotFound error naming the requested
path and the current working directory, before anything is written. -/
def makeIncludableRoot (digest : List HashInput → Nat) (mdir : List String)
    (info : TargetInfo) (rootDisplay cwd : String) (level : Int)
    (base : List String) (fs : Option FsEntry) : List Artifact × Option Error :=
  match fs with
  | none => ([], some (Error.pathNotFound rootDisplay cwd))
  | some e => makeIncludableImpl digest mdir info level base e

/-- Config build (build.rs lines 68-82): reads the target-architecture
variable (a missing variable is a Var error), publishes it as the signal
for the code-generation side (the ok value), and runs the native packer at
the configured level only when the target is not wasm32. The first
component records the artifacts written by the packer run. -/
def Config.build (digest : List HashInput → Nat) (info : TargetInfo)
    (mdir : List String) (cwd : String) (base : List String) (c : Config)
    (targetArch : Option String) (fs : Option FsEntry) :
    List Artifact × Except Error String :=
  match targetArch with
  | none => ([], Except.error (Error.var "CARGO_CFG_TARGET_ARCH"))
  | some arch =>
    if arch = "wasm32" then ([], Except.ok arch)
    else
      match makeIncludableRoot digest mdir info c.path cwd c.level base fs with
      | (ws, none) => (ws, Except.ok arch)
      | (ws, some e) => (ws, Except.error e)

mutual

/-- Number of regular files in a tree. -/
def countFiles : FsEntry → Nat
  | FsEntry.file _ _ _ => 1
  | FsEntry.dir _ es => countFilesList es
  | FsEntry.other _ => 0

/-- Number of regular files in a list of trees. -/
def countFilesList : List FsEntry → Nat
  | [] => 0
  | e :: rest => countFiles e + countFilesList rest

end

mutual

/-- Whether a tree contains only regular files and directories. -/
def regularOnly : FsEntry → Bool
  | FsEntry.file _ _ _ => true
  | FsEntry.dir _ es => regularOnlyList es
  | FsEntry.other _ => false

/-- Whether a list of trees contains only regular files and directories. -/
def regularOnlyList : List FsEntry → Bool
  | [] => true
  | e :: rest => regularOnly e && regularOnlyList rest

end

--
-- Code generation (include_packed_macros/src/lib.rs)
--

/-- The expression a macro invocation expands to: inline compressed bytes
fed to the runtime decompressor (wasm fallback), a reference to the linked
external symbol of the recorded size fed to the runtime decompressor
(native), a compile error diagnostic at the use-site, or a panic of the
expansion. -/
inductive Expansion where
  | wasmInline (compressed : List Nat)
  | nativeSymbol (symbolName : String) (compressedLen : Nat)
  | compileError (msg : String)
  | panicked (msg : String)
deriving DecidableEq

/-- Error message carried by a failing expansion, if any. -/
def Expansion.errMsg : Expansion → Option String
  | Expansion.wasmInline _ => none
  | Expansion.nativeSymbol _ _ => none
  | Expansion.compileError m => some m
  | Expansion.panicked m => some m

/-- Wasm fallback (get_tokens_wasm, macros lib.rs lines 57-94): read the
asset at expansion time (a read failure is a use-site compile error naming
the joined path), compress it inline at the fixed external default level,
and emit the bytes as a literal paired with the decompressor call. -/
def getTokensWasm (manifestDirStr pathStr : String)
    (content : Except String (List Nat)) : Expansion :=
  let path := manifestDirStr ++ "/" ++ pathStr
  match content with
  | Except.error err =>
      Expansion.compileError
        ("include_packed: could not read file " ++ sq ++ path ++ sq ++
          " for wasm target: " ++ err)
  | Except.ok bytes =>
      Expansion.wasmInline (zstd.encode_all bytes zstd.DEFAULT_COMPRESSION_LEVEL)

/-- Native resolver (get_tokens_native, macros lib.rs lines 97-165) for an
asset that exists on disk: re-derive the identifier from the literal path
and the modification time, then read the length record. A missing record
is a use-site compile error naming the asset path and the expected record
path; an unparsable record is a panic naming the record path; on success
the expansion references the linked symbol with the recorded size. -/
def getTokensNative (digest : List HashInput → Nat) (pathStr : String)
    (mtime : Nat) (outDir : String) (lenContents : Option String) : Expansion :=
  let uniqueName := getTokensNativeIdentifier digest (splitOnSlash pathStr) mtime
  let lenPath := outDir ++ "/" ++ uniqueName ++ ".len"
  match lenContents with
  | none =>
      Expansion.compileError
        ("include_packed: failed to read .len file for asset at " ++ sq ++
          pathStr ++ sq ++ "\nexpected at: " ++ lenPath)
  | some s =>
    match parseUsize s with
    | none =>
        Expansion.panicked
          ("include_packed: corrupt .len file at " ++ sq ++ lenPath ++ sq)
    | some n => Expansion.nativeSymbol uniqueName n

/-- Macro dispatch (include_packed, macros lib.rs lines 38-54): a missing
signal is the analysis-time diagnostic; the wasm32 signal selects the
inline fallback; every other signal selects the native path. -/
def includePackedExpand (digest : List HashInput → Nat)
    (signal : Option String) (manifestDirStr pathStr : String)
    (wasmContent : Except String (List Nat)) (mtime : Nat) (outDir : String)
    (lenContents : Option String) : Expansion :=
  match signal with
  | none =>
      Expansion.compileError
        "include_packed: build script has not run. This is expected during analysis (e.g., by rust-analyzer)."
  | some arch =>
    if arch = "wasm32" then getTokensWasm manifestDirStr pathStr wasmContent
    else getTokensNative digest pathStr mtime outDir lenContents

--
-- Helper lemmas
--

lemma hex16_length (n : Nat) : (hex16 n).length = 16 := by
  show ((List.range 16).map _).length = 16
  simp

lemma hex16_data_length (n : Nat) : (hex16 n).data.length = 16 := by
  show ((List.range 16).map _).length = 16
  simp

lemma rleDecode_rleEncode (l : List Nat) : zstd.rleDecode (zstd.rleEncode l) = l := by
  induction l with
  | nil => rfl
  | cons b rest ih =>
    simp only [zstd.rleEncode]
    cases h : zstd.rleEncode rest with
    | nil =>
      rw [h] at ih
      simp only [zstd.rleDecode] at ih
      simp [zstd.rleDecode, ← ih]
    | cons p tail =>
      obtain ⟨c, b2⟩ := p
      rw [h] at ih
      show zstd.rleDecode
          (if b = b2 ∧ c < 255 then (c + 1, b) :: tail else (1, b) :: (c, b2) :: tail) =
        b :: rest
      by_cases hc : b = b2 ∧ c < 255
      · rw [if_pos hc]
        simp only [zstd.rleDecode, List.replicate_succ] at ih ⊢
        simp [hc.1, ih]
      · rw [if_neg hc]
        simp only [zstd.rleDecode, List.replicate_succ] at ih ⊢
        simp [ih]

lemma pairsParse_pairsSerialize (ps : List (Nat × Nat)) :
    zstd.pairsParse (zstd.pairsSerialize ps) = some ps := by
  induction ps with
  | nil => rfl
  | cons p tail ih =>
    obtain ⟨c, b⟩ := p
    simp [zstd.pairsSerialize, zstd.pairsParse, ih]

--
-- Claim theorems
--

/-- C1: the identifier derived by the preparation phase (process_file) and
the identifier re-derived by the consumer-side resolver (get_tokens_native)
agree whenever the manifest-stripped canonical path equals the path the
resolver hashes: both apply the same hasher to the same write sequence and
the same prefixed 16-hex-digit format, so equal (relative path, mtime)
inputs yield the same token. -/
theorem c1_identifier_agreement (digest : List HashInput → Nat)
    (canonicalPath mdir comps : List String) (t : Nat)
    (h : stripPrefixComponents canonicalPath mdir = comps) :
    processFileIdentifier digest canonicalPath mdir t =
      getTokensNativeIdentifier digest comps t ∧
    "include_packed_".data <+: (processFileIdentifier digest canonicalPath mdir t).data ∧
    (processFileIdentifier digest canonicalPath mdir t).length =
      "include_packed_".length + 16 := by
  subst h
  refine ⟨rfl, ⟨(hex16 _).data, rfl⟩, ?_⟩
  show ("include_packed_".data ++ (hex16 _).data).length = _
  rw [List.length_append, hex16_data_length]
  rfl

/-- Witness for C1 at a concrete path, manifest directory and mtime. -/
theorem c1_identifier_agreement_witness :
    stripPrefixComponents ["home", "proj", "assets", "a.txt"] ["home", "proj"] =
        ["assets", "a.txt"] ∧
      processFileIdentifier (fun _ => 5) ["home", "proj", "assets", "a.txt"]
          ["home", "proj"] 0 =
        getTokensNativeIdentifier (fun _ => 5) ["assets", "a.txt"] 0 :=
  ⟨by decide,
    (c1_identifier_agreement (fun _ => 5) ["home", "proj", "assets", "a.txt"]
      ["home", "proj"] ["assets", "a.txt"] 0 (by decide)).1⟩

/-- C2: for every byte buffer and every compression level in the documented
range, decompressing the compressed buffer yields the original buffer:
the runtime decompressor inverts the preparation-side compressor. -/
theorem c2_roundtrip (b : List Nat) (l : Int) (_h1 : 1 ≤ l) (_h2 : l ≤ 21) :
    decompress (zstd.encode_all b l) = some b := by
  have h4 : zstd.zstdMagic.length = 4 := rfl
  unfold decompress zstd.decode_all zstd.encode_all
  rw [List.take_left' h4, if_pos rfl, List.drop_left' h4, pairsParse_pairsSerialize]
  simp [rleDecode_rleEncode]

/-- Witness for C2 at a concrete buffer and level. -/
theorem c2_roundtrip_witness :
    ((1 : Int) ≤ 6 ∧ (6 : Int) ≤ 21) ∧
      decompress (zstd.encode_all [104, 101, 108, 108, 111, 10] 6) =
        some [104, 101, 108, 108, 111, 10] :=
  ⟨by decide, c2_roundtrip [104, 101, 108, 108, 111, 10] 6 (by decide) (by decide)⟩

/-- C3: strategy selection is driven by the single target-architecture
signal the preparation publishes: for the wasm32 signal the build skips the
native packer and the macro emits the inline fallback compressed at the
fixed fallback default level 3, for every other signal the macro emits the
native symbol reference and the packer runs; the preparation-path default
level is 6. -/
theorem c3_strategy_selection :
    (∀ digest info mdir cwd base p fs,
      Config.build digest info mdir cwd base (Config.new p) (some "wasm32") fs =
        ([], Except.ok "wasm32")) ∧
    (∀ digest manifestDirStr pathStr wasmContent mtime outDir lenContents,
      includePackedExpand digest (some "wasm32") manifestDirStr pathStr wasmContent
          mtime outDir lenContents =
        getTokensWasm manifestDirStr pathStr wasmContent) ∧
    (∀ manifestDirStr pathStr bytes,
      getTokensWasm manifestDirStr pathStr (Except.ok bytes) =
        Expansion.wasmInline (zstd.encode_all bytes 3)) ∧
    zstd.DEFAULT_COMPRESSION_LEVEL = 3 ∧
    DEFAULT_COMPRESSION_LEVEL = 6 ∧
    (∀ p, (Config.new p).level = 6) ∧
    (∀ digest arch manifestDirStr pathStr wasmContent mtime outDir lenContents,
      arch ≠ "wasm32" →
      includePackedExpand digest (some arch) manifestDirStr pathStr wasmContent
          mtime outDir lenContents =
        getTokensNative digest pathStr mtime outDir lenContents) ∧
    (∀ digest info mdir cwd base p fs arch, arch ≠ "wasm32" →
      Config.build digest info mdir cwd base (Config.new p) (some arch) fs =
        (match makeIncludableRoot digest mdir info p cwd 6 base fs with
          | (ws, none) => (ws, Except.ok arch)
          | (ws, some e) => (ws, Except.error e))) := by
  refine ⟨?_, ?_, ?_, rfl, rfl, fun p => rfl, ?_, ?_⟩
  · intro digest info mdir cwd base p fs
    rfl
  · intro digest manifestDirStr pathStr wasmContent mtime outDir lenContents
    rfl
  · intro manifestDirStr pathStr bytes
    rfl
  · intro digest arch manifestDirStr pathStr wasmContent mtime outDir lenContents h
    simp [includePackedExpand, h]
  · intro digest info mdir cwd base p fs arch h
    simp [Config.build, h, Config.new, DEFAULT_COMPRESSION_LEVEL]

/-- Witness for C3 at a concrete non-wasm signal. -/
theorem c3_strategy_selection_witness :
    (("x86_64" : String) ≠ "wasm32") ∧
      includePackedExpand (fun _ => 0) (some "x86_64") "md" "a.txt" (Except.ok [])
          0 "out" none =
        getTokensNative (fun _ => 0) "a.txt" 0 "out" none :=
  ⟨by decide,
    c3_strategy_selection.2.2.2.2.2.2.1 (fun _ => 0) "x86_64" "md" "a.txt"
      (Except.ok []) 0 "out" none (by decide)⟩

/-- C4: for every target descriptor, identifier and compressed blob, the
synthesised object has exactly one read-only-data subsection tagged by the
identifier and exactly one symbol named by the identifier, with value 0,
size equal to the blob length, data kind, dynamic (externally visible)
scope, backed by the blob at 1-byte alignment. -/
theorem c4_object_synthesis (info : TargetInfo) (uniqueName : String)
    (compressed : List Nat) :
    (processFileObject info uniqueName compressed).sections =
        [(StandardSection.readOnlyData, uniqueName)] ∧
      (processFileObject info uniqueName compressed).symbols =
        [{ name := uniqueName, value := 0, size := compressed.length,
           kind := SymbolKind.data, scope := SymbolScope.dynamic, weak := false,
           sect := SymbolSection.inSection 0, flags := SymbolFlags.none }] ∧
      (processFileObject info uniqueName compressed).symbolData =
        [(0, 0, compressed, 1)] ∧
      (processFileObject info uniqueName compressed).format = info.binfmt ∧
      (processFileObject info uniqueName compressed).arch = info.arch ∧
      (processFileObject info uniqueName compressed).endian = info.endian :=
  ⟨rfl, rfl, rfl, rfl, rfl, rfl⟩

lemma binfmtOfOs_isSome (os : String) :
    (binfmtOfOs os).isSome = true ↔
      os = "macos" ∨ os = "ios" ∨ os = "windows" ∨ os = "linux" ∨ os = "android" ∨
        os = "freebsd" ∨ os = "netbsd" ∨ os = "openbsd" ∨ os = "dragonfly" ∨
        os = "solaris" ∨ os = "illumos" := by
  unfold binfmtOfOs
  split_ifs with h1 h2 h3 <;> simp_all <;> tauto

lemma archOfStr_isSome (a : String) :
    (archOfStr a).isSome = true ↔
      a = "x86" ∨ a = "x86_64" ∨ a = "arm" ∨ a = "aarch64" ∨ a = "riscv32" ∨
        a = "riscv64" ∨ a = "mips" ∨ a = "mips64" ∨ a = "powerpc" ∨
        a = "powerpc64" := by
  unfold archOfStr
  split_ifs with h1 h2 h3 h4 h5 h6 h7 h8 h9 h10 <;> simp_all

lemma endianOfStr_isSome (e : String) :
    (endianOfStr e).isSome = true ↔ e = "little" ∨ e = "big" := by
  unfold endianOfStr
  split_ifs with h1 h2 <;> simp_all

/-- C5: target resolution is total exactly over the closed allow-list:
every listed operating system, architecture and endianness resolves (to
the claimed format and architecture), and every value outside the list
fails fatally (resolves to none). -/
theorem c5_target_resolution :
    (∀ os a e, (TargetInfo.from_build_script_vars os a e).isSome = true ↔
        ((os = "macos" ∨ os = "ios" ∨ os = "windows" ∨ os = "linux" ∨
            os = "android" ∨ os = "freebsd" ∨ os = "netbsd" ∨ os = "openbsd" ∨
            os = "dragonfly" ∨ os = "solaris" ∨ os = "illumos") ∧
          (a = "x86" ∨ a = "x86_64" ∨ a = "arm" ∨ a = "aarch64" ∨
            a = "riscv32" ∨ a = "riscv64" ∨ a = "mips" ∨ a = "mips64" ∨
            a = "powerpc" ∨ a = "powerpc64") ∧
          (e = "little" ∨ e = "big"))) ∧
      (binfmtOfOs "macos" = some BinaryFormat.machO ∧
        binfmtOfOs "ios" = some BinaryFormat.machO ∧
        binfmtOfOs "windows" = some BinaryFormat.coff ∧
        binfmtOfOs "linux" = some BinaryFormat.elf ∧
        binfmtOfOs "android" = some BinaryFormat.elf ∧
        binfmtOfOs "freebsd" = some BinaryFormat.elf ∧
        binfmtOfOs "netbsd" = some BinaryFormat.elf ∧
        binfmtOfOs "openbsd" = some BinaryFormat.elf ∧
        binfmtOfOs "dragonfly" = some BinaryFormat.elf ∧
        binfmtOfOs "solaris" = some BinaryFormat.elf ∧
        binfmtOfOs "illumos" = some BinaryFormat.elf ∧
        archOfStr "x86" = some Architecture.i386 ∧
        archOfStr "x86_64" = some Architecture.x86_64 ∧
        archOfStr "arm" = some Architecture.arm ∧
        archOfStr "aarch64" = some Architecture.aarch64 ∧
        archOfStr "riscv32" = some Architecture.riscv32 ∧
        archOfStr "riscv64" = some Architecture.riscv64 ∧
        archOfStr "mips" = some Architecture.mips ∧
        archOfStr "mips64" = some Architecture.mips64 ∧
        archOfStr "powerpc" = some Architecture.powerPc ∧
        archOfStr "powerpc64" = some Architecture.powerPc64 ∧
        endianOfStr "little" = some Endianness.little ∧
        endianOfStr "big" = some Endianness.big) := by
  constructor
  · intro os a e
    have key : (TargetInfo.from_build_script_vars os a e).isSome =
        ((binfmtOfOs os).isSome && ((archOfStr a).isSome && (endianOfStr e).isSome)) := by
      unfold TargetInfo.from_build_script_vars
      cases binfmtOfOs os <;> cases archOfStr a <;> cases endianOfStr e <;> rfl
    rw [key]
    simp only [Bool.and_eq_true]
    exact and_congr (binfmtOfOs_isSome os)
      (and_congr (archOfStr_isSome a) (endianOfStr_isSome e))
  · decide

/-- Witness for C5: a listed combination resolves. -/
theorem c5_target_resolution_witness :
    (TargetInfo.from_build_script_vars "linux" "riscv64" "big").isSome = true :=
  (c5_target_resolution.1 "linux" "riscv64" "big").mpr (by decide)

lemma fsEntry_sizeOf_pos (e : FsEntry) : 0 < sizeOf e := by
  cases e <;> simp_arith

lemma walker_regular_aux (digest : List HashInput → Nat) (mdir : List String)
    (info : TargetInfo) (level : Int) :
    ∀ n : Nat,
      (∀ e : FsEntry, sizeOf e ≤ n → ∀ ps, regularOnly e = true →
        (makeIncludableImpl digest mdir info level ps e).2 = none ∧
        (makeIncludableImpl digest mdir info level ps e).1.length = countFiles e) ∧
      (∀ es : List FsEntry, sizeOf es ≤ n → ∀ ps, regularOnlyList es = true →
        (makeIncludableDir digest mdir info level ps es).2 = none ∧
        (makeIncludableDir digest mdir info level ps es).1.length = countFilesList es) := by
  intro n
  induction n with
  | zero =>
    constructor
    · intro e he
      exact absurd he (by have := fsEntry_sizeOf_pos e; omega)
    · intro es hes
      have hpos : 0 < sizeOf es := by cases es <;> simp_arith
      exact absurd hes (by omega)
  | succ n ih =>
    constructor
    · intro e he ps hr
      cases e with
      | file nm c t =>
        simp [makeIncludableImpl, countFiles]
      | dir nm es =>
        have hes : sizeOf es ≤ n := by
          simp only [FsEntry.dir.sizeOf_spec] at he
          omega
        have hr2 : regularOnlyList es = true := by
          simpa [regularOnly] using hr
        have hd := ih.2 es hes (ps ++ [nm]) hr2
        simpa [makeIncludableImpl, countFiles] using hd
      | other nm =>
        simp [regularOnly] at hr
    · intro es hes ps hr
      cases es with
      | nil => simp [makeIncludableDir, countFilesList]
      | cons e rest =>
        have h1 : sizeOf e ≤ n := by
          simp only [List.cons.sizeOf_spec] at hes
          omega
        have h2 : sizeOf rest ≤ n := by
          have := fsEntry_sizeOf_pos e
          simp only [List.cons.sizeOf_spec] at hes
          omega
        have hre : regularOnly e = true ∧ regularOnlyList rest = true := by
          simpa [regularOnlyList, Bool.and_eq_true] using hr
        have pe := ih.1 e h1 ps hre.1
        have pr := ih.2 rest h2 ps hre.2
        cases hx : makeIncludableImpl digest mdir info level ps e with
        | mk ws r2 =>
          rw [hx] at pe
          simp only at pe
          obtain ⟨pe1, pe2⟩ := pe
          subst pe1
          constructor
          · simp only [makeIncludableDir]
            rw [hx]
            simpa using pr.1
          · simp only [makeIncludableDir]
            rw [hx]
            simpa [List.length_append, pe2, countFilesList] using pr.2

/-- C6: on a tree of regular files and directories the walker succeeds and
yields exactly one artifact pair per regular file, regardless of nesting
(in particular a single regular file as root is processed); any other
entry kind is a fatal UnsupportedFileType error for that path. -/
theorem c6_walker_completeness :
    (∀ digest mdir info level ps (e : FsEntry), regularOnly e = true →
      (makeIncludableImpl digest mdir info level ps e).2 = none ∧
      (makeIncludableImpl digest mdir info level ps e).1.length = countFiles e) ∧
    (∀ digest mdir info level ps nm,
      makeIncludableImpl digest mdir info level ps (FsEntry.other nm) =
        ([], some (Error.unsupportedFileType (joinComponents (ps ++ [nm]))))) := by
  constructor
  · intro digest mdir info level ps e hr
    exact (walker_regular_aux digest mdir info level (sizeOf e)).1 e le_rfl ps hr
  · intro digest mdir info level ps nm
    simp [makeIncludableImpl]

/-- Witness for C6 on a concrete nested tree with two regular files. -/
theorem c6_walker_completeness_witness :
    regularOnly (FsEntry.dir "a" [FsEntry.file "f" [1, 2] 0,
        FsEntry.dir "d" [FsEntry.file "g" [] 0]]) = true ∧
      ((makeIncludableImpl (fun _ => 0) []
          ⟨BinaryFormat.elf, Architecture.x86_64, Endianness.little⟩ 3 []
          (FsEntry.dir "a" [FsEntry.file "f" [1, 2] 0,
            FsEntry.dir "d" [FsEntry.file "g" [] 0]])).2 = none ∧
        (makeIncludableImpl (fun _ => 0) []
          ⟨BinaryFormat.elf, Architecture.x86_64, Endianness.little⟩ 3 []
          (FsEntry.dir "a" [FsEntry.file "f" [1, 2] 0,
            FsEntry.dir "d" [FsEntry.file "g" [] 0]])).1.length =
          countFiles (FsEntry.dir "a" [FsEntry.file "f" [1, 2] 0,
            FsEntry.dir "d" [FsEntry.file "g" [] 0]])) :=
  ⟨by simp [regularOnly, regularOnlyList],
    c6_walker_completeness.1 (fun _ => 0) []
      ⟨BinaryFormat.elf, Architecture.x86_64, Endianness.little⟩ 3 []
      (FsEntry.dir "a" [FsEntry.file "f" [1, 2] 0,
        FsEntry.dir "d" [FsEntry.file "g" [] 0]])
      (by simp [regularOnly, regularOnlyList])⟩

/-- C7 counterexample: a run that fails with an unsupported-input error
after processing a regular file leaves that file artifact pair written:
the failing run has written one artifact, so a failed preparation does not
imply an empty output. -/
theorem c7_counterexample :
    ((makeIncludableImpl (fun _ => 0) []
        ⟨BinaryFormat.elf, Architecture.x86_64, Endianness.little⟩ 3 []
        (FsEntry.dir "assets" [FsEntry.file "a" [0] 0, FsEntry.other "bad"])).2 =
      some (Error.unsupportedFileType "assets/bad")) ∧
    ((makeIncludableImpl (fun _ => 0) []
        ⟨BinaryFormat.elf, Architecture.x86_64, Endianness.little⟩ 3 []
        (FsEntry.dir "assets" [FsEntry.file "a" [0] 0, FsEntry.other "bad"])).1.length =
      1) := by
  constructor
  · simp only [makeIncludableImpl, makeIncludableDir, joinComponents]
    decide
  · simp [makeIncludableImpl, makeIncludableDir]

/-- C7 (amended): a configuration, path, unsupported-input or encoding
error aborts the whole preparation step at the failing entry: once an
entry of a directory fails, no later entry is processed and no further
artifact is written; the artifacts already written before the failure
remain. -/
theorem c7_abort_on_first_error (digest : List HashInput → Nat)
    (mdir : List String) (info : TargetInfo) (level : Int) (ps : List String)
    (e : FsEntry) (rest : List FsEntry) (ws : List Artifact) (err : Error)
    (h : makeIncludableImpl digest mdir info level ps e = (ws, some err)) :
    makeIncludableDir digest mdir info level ps (e :: rest) = (ws, some err) := by
  simp only [makeIncludableDir]
  rw [h]

/-- Witness for C7 (amended): a failing first entry stops the walk before
a following regular file. -/
theorem c7_abort_on_first_error_witness :
    makeIncludableImpl (fun _ => 0) []
        ⟨BinaryFormat.elf, Architecture.x86_64, Endianness.little⟩ 3 []
        (FsEntry.other "x") = ([], some (Error.unsupportedFileType "x")) ∧
      makeIncludableDir (fun _ => 0) []
        ⟨BinaryFormat.elf, Architecture.x86_64, Endianness.little⟩ 3 []
        [FsEntry.other "x", FsEntry.file "f" [] 0] =
        ([], some (Error.unsupportedFileType "x")) :=
  ⟨by simp only [makeIncludableImpl, joinComponents]; decide,
    c7_abort_on_first_error (fun _ => 0) []
      ⟨BinaryFormat.elf, Architecture.x86_64, Endianness.little⟩ 3 []
      (FsEntry.other "x") [FsEntry.file "f" [] 0] []
      (Error.unsupportedFileType "x")
      (by simp only [makeIncludableImpl, joinComponents]; decide)⟩

/-- C8: a root that cannot be resolved fails with a PathNotFound error
whose message names the exact requested path and the current working
directory, and the run writes zero artifacts. -/
theorem c8_missing_root (digest : List HashInput → Nat) (mdir : List String)
    (info : TargetInfo) (root cwd : String) (level : Int) (base : List String) :
    makeIncludableRoot digest mdir info root cwd level base none =
        ([], some (Error.pathNotFound root cwd)) ∧
      (Error.pathNotFound root cwd).message =
        "Path " ++ sq ++ root ++ sq ++ " not found (current directory is " ++
          sq ++ cwd ++ sq ++ ")" :=
  ⟨rfl, rfl⟩

/-- C9 counterexample: when the length record for an asset is missing the
resolver does produce a use-site error, but its message does not suggest
rerunning preparation: at a concrete input the message contains no
occurrence of the word run at all. -/
theorem c9_counterexample :
    (getTokensNative (fun _ => 0) "a.txt" 0 "out" none).errMsg.map
        (fun m => strContains m "run") = some false := by
  decide

/-- C9 (amended): a missing length record is a use-site compile error whose
message cites the asset path and the expected record path (without
suggesting a rerun of preparation); an unparsable record is a panic citing
the record path. -/
theorem c9_len_record_errors (digest : List HashInput → Nat) (pathStr : String)
    (mtime : Nat) (outDir : String) :
    (getTokensNative digest pathStr mtime outDir none =
        Expansion.compileError
          ("include_packed: failed to read .len file for asset at " ++ sq ++
            pathStr ++ sq ++ "\nexpected at: " ++
            (outDir ++ "/" ++
              getTokensNativeIdentifier digest (splitOnSlash pathStr) mtime ++
              ".len"))) ∧
      (∀ s, parseUsize s = none →
        getTokensNative digest pathStr mtime outDir (some s) =
          Expansion.panicked
            ("include_packed: corrupt .len file at " ++ sq ++
              (outDir ++ "/" ++
                getTokensNativeIdentifier digest (splitOnSlash pathStr) mtime ++
                ".len") ++ sq)) := by
  refine ⟨rfl, fun s hs => ?_⟩
  simp [getTokensNative, hs]

/-- Witness for C9 (amended) at a concrete corrupt record. -/
theorem c9_len_record_errors_witness :
    parseUsize "12a" = none ∧
      getTokensNative (fun _ => 0) "a.txt" 0 "out" (some "12a") =
        Expansion.panicked
          ("include_packed: corrupt .len file at " ++ sq ++
            ("out" ++ "/" ++
              getTokensNativeIdentifier (fun _ => 0) (splitOnSlash "a.txt") 0 ++
              ".len") ++ sq) :=
  ⟨by decide, (c9_len_record_errors (fun _ => 0) "a.txt" 0 "out").2 "12a" (by decide)⟩

/-- C10: the public builder performs no validation of the compression
level: for every integer level, including out-of-range values, Config new
followed by the level setter stores the value unchanged, and build passes
it verbatim to the packer, whose per-file processing hands it verbatim to
the compressor. -/
theorem c10_no_level_validation (p : String) (l : Int)
    (digest : List HashInput → Nat) (info : TargetInfo) (mdir : List String)
    (cwd : String) (base : List String) (fs : Option FsEntry) (arch : String)
    (h : arch ≠ "wasm32") :
    ((Config.new p).setLevel l).level = l ∧
      (Config.new p).level = DEFAULT_COMPRESSION_LEVEL ∧
      Config.build digest info mdir cwd base ((Config.new p).setLevel l)
          (some arch) fs =
        (match makeIncludableRoot digest mdir info p cwd l base fs with
          | (ws, none) => (ws, Except.ok arch)
          | (ws, some e) => (ws, Except.error e)) ∧
      (∀ full c t, (processFileArtifact digest mdir info l full c t).compressed =
        zstd.encode_all c l) := by
  refine ⟨rfl, rfl, ?_, fun full c t => rfl⟩
  simp [Config.build, h, Config.new, Config.setLevel]

/-- Witness for C10 at a concrete out-of-range level. -/
theorem c10_no_level_validation_witness :
    (("x86_64" : String) ≠ "wasm32") ∧
      ((Config.new "assets").setLevel (-5)).level = -5 :=
  ⟨by decide,
    (c10_no_level_validation "assets" (-5) (fun _ => 0)
      ⟨BinaryFormat.elf, Architecture.x86_64, Endianness.little⟩ [] "cwd" [] none
      "x86_64" (by decide)).1⟩

end IncludePacked
